import Mathlib

/-!
Verification of the slurm-client version-adapter layer.

This file gives a shallow embedding of the adapter layer of the
jontk/slurm-client repository: the v0.0.43 partition adapter
(list filtering, pagination, wire-to-domain conversion, and the
precondition chain of Get), the v0.0.41 node manager, the entity
validators, and the association default-cluster population step.
Pointer-valued wire fields are embedded as Option, Go int32 as Int,
nil slices as Option (List String), and fallible steps as Option or
Except values.  Where an implementation body is absent from the
repository snapshot, the definition's doc comment says what it was
modelled from (the specification, or the behaviour pinned by the
repository's own tests).
-/

namespace SlurmClient

/-- Error taxonomy kinds used by the adapter layer (pkg/errors error
codes), restricted to the kinds the embedded operations produce. -/
inductive ErrorCode
  | contextRequired
  | clientNotInitialized
  | validationError
  | unsupportedOperation
  deriving DecidableEq, Repr

/-- A normalized client error: a taxonomy kind, a human-readable
message, and an optional details string (errors.NewClientError). -/
structure ClientError where
  code : ErrorCode
  message : String
  details : String := ""
  deriving DecidableEq, Repr

/-- Modelled from the spec: the ContextRequired error produced by the
BaseManager context check; its message is pinned by the adapter tests
(assert.Contains err "context is required"). -/
def contextRequiredError : ClientError :=
  { code := ErrorCode.contextRequired, message := "context is required" }

/-- Modelled from the spec: the ClientNotInitialized error produced by
the BaseManager initialization check; its message is pinned by the
adapter tests (assert.Contains err "client not initialized"). -/
def clientNotInitializedError : ClientError :=
  { code := ErrorCode.clientNotInitialized, message := "client not initialized" }

/-- A ValidationError whose message names a required field, as produced
by BaseManager.ValidateResourceName (message pinned by the adapter
tests, e.g. "partition name is required"). -/
def fieldRequiredMessage (fieldName : String) : ClientError :=
  { code := ErrorCode.validationError, message := fieldName ++ " is required" }

/-- A ValidationError with a free-form message. -/
def validationMessage (msg : String) : ClientError :=
  { code := ErrorCode.validationError, message := msg }

/-! ## Wire model: api.V0043PartitionInfo

The generated v0.0.43 wire struct, restricted to the fields the
partition adapter reads.  Every pointer field of the Go struct is an
Option here, defaulting to none (absent). -/

/-- Nested Partition group of V0043PartitionInfo: State is a pointer to
a slice of state strings. -/
structure V0043PartitionInfoGroupPartition where
  State : Option (List String) := none
  deriving DecidableEq, Repr

/-- Nested Nodes group of V0043PartitionInfo. -/
structure V0043PartitionInfoGroupNodes where
  Configured : Option String := none
  Total : Option Int := none
  deriving DecidableEq, Repr

/-- A wire number wrapper holding an optional int32 Number field (the
NoValStruct shape the adapter dereferences as .Number). -/
structure V0043NumberHolder where
  Number : Option Int := none
  deriving DecidableEq, Repr

/-- Nested Maximums group of V0043PartitionInfo. -/
structure V0043PartitionInfoGroupMaximums where
  Nodes : Option V0043NumberHolder := none
  Time : Option V0043NumberHolder := none
  deriving DecidableEq, Repr

/-- Nested Minimums group of V0043PartitionInfo. -/
structure V0043PartitionInfoGroupMinimums where
  Nodes : Option Int := none
  deriving DecidableEq, Repr

/-- Nested Defaults group of V0043PartitionInfo. -/
structure V0043PartitionInfoGroupDefaults where
  Time : Option V0043NumberHolder := none
  deriving DecidableEq, Repr

/-- Nested Priority group of V0043PartitionInfo. -/
structure V0043PartitionInfoGroupPriority where
  JobFactor : Option Int := none
  deriving DecidableEq, Repr

/-- Nested Accounts group of V0043PartitionInfo: comma-separated allow
and deny lists. -/
structure V0043PartitionInfoGroupAccounts where
  Allowed : Option String := none
  Deny : Option String := none
  deriving DecidableEq, Repr

/-- Nested Qos group of V0043PartitionInfo. -/
structure V0043PartitionInfoGroupQos where
  Allowed : Option String := none
  Deny : Option String := none
  Assigned : Option String := none
  deriving DecidableEq, Repr

/-- The v0.0.43 wire partition record (api.V0043PartitionInfo),
restricted to the fields convertAPIPartitionToCommon reads. -/
structure V0043PartitionInfo where
  Name : Option String := none
  Partition : Option V0043PartitionInfoGroupPartition := none
  Nodes : Option V0043PartitionInfoGroupNodes := none
  Maximums : Option V0043PartitionInfoGroupMaximums := none
  Minimums : Option V0043PartitionInfoGroupMinimums := none
  Defaults : Option V0043PartitionInfoGroupDefaults := none
  Priority : Option V0043PartitionInfoGroupPriority := none
  Accounts : Option V0043PartitionInfoGroupAccounts := none
  Qos : Option V0043PartitionInfoGroupQos := none
  deriving DecidableEq, Repr

/-! ## Domain model: types.Partition -/

/-- The version-independent domain partition record (types.Partition),
restricted to the fields the v0.0.43 converter assigns.  Go nil slices
are Option (List String) with default none; the zero value of every
field is the structure default. -/
structure Partition where
  Name : String := ""
  State : String := ""
  Nodes : String := ""
  TotalNodes : Int := 0
  MaxNodes : Int := 0
  MaxTime : Int := 0
  MinNodes : Int := 0
  DefaultTime : Int := 0
  Priority : Int := 0
  AllowAccounts : Option (List String) := none
  DenyAccounts : Option (List String) := none
  AllowQoS : Option (List String) := none
  DenyQoS : Option (List String) := none
  QoS : String := ""
  deriving DecidableEq, Repr

/-- extractPartitionState: the first entry of the nested state slice
when the Partition group, the State pointer, and a first entry are all
present; the empty string otherwise. -/
def extractPartitionState (apiPartition : V0043PartitionInfo) : String :=
  match apiPartition.Partition with
  | some group =>
      match group.State with
      | some states =>
          match states with
          | [] => ""
          | s :: _ => s
      | none => ""
  | none => ""

/-- extractPartitionNodes: the configured-nodes expression and the
total node count from the Nodes group, zero values where absent. -/
def extractPartitionNodes (apiPartition : V0043PartitionInfo) : String × Int :=
  match apiPartition.Nodes with
  | some group => (group.Configured.getD "", group.Total.getD 0)
  | none => ("", 0)

/-- extractPartitionLimits: (maxNodes, maxTime, minNodes, defaultTime)
from the Maximums, Minimums and Defaults groups, zero where absent. -/
def extractPartitionLimits (apiPartition : V0043PartitionInfo) : Int × Int × Int × Int :=
  let maxNodes :=
    match apiPartition.Maximums with
    | some m =>
        match m.Nodes with
        | some holder => holder.Number.getD 0
        | none => 0
    | none => 0
  let maxTime :=
    match apiPartition.Maximums with
    | some m =>
        match m.Time with
        | some holder => holder.Number.getD 0
        | none => 0
    | none => 0
  let minNodes :=
    match apiPartition.Minimums with
    | some m => m.Nodes.getD 0
    | none => 0
  let defaultTime :=
    match apiPartition.Defaults with
    | some d =>
        match d.Time with
        | some holder => holder.Number.getD 0
        | none => 0
    | none => 0
  (maxNodes, maxTime, minNodes, defaultTime)

/-- extractPartitionPriority: the job factor from the Priority group,
zero where absent. -/
def extractPartitionPriority (apiPartition : V0043PartitionInfo) : Int :=
  match apiPartition.Priority with
  | some group => group.JobFactor.getD 0
  | none => 0

/-- extractPartitionAccounts: allow and deny account lists obtained by
splitting the comma-separated wire strings; Go nil slices (group or
field absent) are none. -/
def extractPartitionAccounts (apiPartition : V0043PartitionInfo) :
    Option (List String) × Option (List String) :=
  match apiPartition.Accounts with
  | some group =>
      (group.Allowed.map (fun s => s.splitOn ","),
       group.Deny.map (fun s => s.splitOn ","))
  | none => (none, none)

/-- extractPartitionQoS: allow and deny QoS lists (comma-split) and the
assigned QoS string; nil slices and the empty string where absent. -/
def extractPartitionQoS (apiPartition : V0043PartitionInfo) :
    Option (List String) × Option (List String) × String :=
  match apiPartition.Qos with
  | some group =>
      (group.Allowed.map (fun s => s.splitOn ","),
       group.Deny.map (fun s => s.splitOn ","),
       group.Assigned.getD "")
  | none => (none, none, "")

/-- convertAPIPartitionToCommon: builds the domain partition from the
wire record, assigning every field from its extract helper; defined
exactly as the v0.0.43 adapter source and never failing. -/
def convertAPIPartitionToCommon (apiPartition : V0043PartitionInfo) : Partition :=
  let name := apiPartition.Name.getD ""
  let state := extractPartitionState apiPartition
  let nodesPair := extractPartitionNodes apiPartition
  let limits := extractPartitionLimits apiPartition
  let priority := extractPartitionPriority apiPartition
  let accountsPair := extractPartitionAccounts apiPartition
  let qosTriple := extractPartitionQoS apiPartition
  { Name := name
    State := state
    Nodes := nodesPair.1
    TotalNodes := nodesPair.2
    MaxNodes := limits.1
    MaxTime := limits.2.1
    MinNodes := limits.2.2.1
    DefaultTime := limits.2.2.2
    Priority := priority
    AllowAccounts := accountsPair.1
    DenyAccounts := accountsPair.2
    AllowQoS := qosTriple.1
    DenyQoS := qosTriple.2.1
    QoS := qosTriple.2.2 }

/-! ## Wire and domain model: v0.0.44 cluster -/

/-- Nested controller group of the v0.0.44 wire cluster record. -/
structure V0044ClusterRecController where
  Host : Option String := none
  Port : Option Int := none
  deriving DecidableEq, Repr

/-- The v0.0.44 wire cluster record (api.V0044ClusterRec), restricted
to the fields the cluster adapter reads. -/
structure V0044ClusterRec where
  Name : Option String := none
  Controller : Option V0044ClusterRecController := none
  deriving DecidableEq, Repr

/-- The domain cluster record (name plus controller host and port). -/
structure Cluster where
  Name : String := ""
  ControllerHost : String := ""
  ControllerPort : Int := 0
  deriving DecidableEq, Repr

/-- Modelled from the spec: convertAPIClusterToCommon of the v0.0.44
cluster adapter, whose body is absent from the repository snapshot.
Per the spec, conversion never fails for a structurally valid wire
payload and every absent field becomes the domain zero value; the
result and error shape follow the signature used by the cluster
adapter tests (result plus error, error always nil). -/
def convertAPIClusterToCommon (apiCluster : V0044ClusterRec) : Except ClientError Cluster :=
  Except.ok
    { Name := apiCluster.Name.getD ""
      ControllerHost :=
        match apiCluster.Controller with
        | some c => c.Host.getD ""
        | none => ""
      ControllerPort :=
        match apiCluster.Controller with
        | some c => c.Port.getD 0
        | none => 0 }

/-- C1: converting an all-absent wire payload succeeds and yields the
zero-value domain record: convertAPIPartitionToCommon on the empty
v0.0.43 wire partition gives empty identity and all-zero numeric
fields, and convertAPIClusterToCommon on the empty v0.0.44 wire
cluster record returns ok with the zero-value cluster. -/
theorem empty_wire_payload_converts_to_zero_value :
    convertAPIPartitionToCommon {} =
      { Name := "", State := "", Nodes := "", TotalNodes := 0, MaxNodes := 0,
        MaxTime := 0, MinNodes := 0, DefaultTime := 0, Priority := 0,
        AllowAccounts := none, DenyAccounts := none, AllowQoS := none,
        DenyQoS := none, QoS := "" } ∧
    convertAPIClusterToCommon {} =
      Except.ok { Name := "", ControllerHost := "", ControllerPort := 0 } :=
  ⟨rfl, rfl⟩

/-! ## Client-side filtering and pagination of partition lists -/

/-- Case-insensitive string comparison modelling Go strings.EqualFold:
two strings are equal under simple case folding, embedded here as
character-wise Char.toLower equality (which agrees with the Go
function on the ASCII resource names the adapter compares). -/
def equalFold (s t : String) : Bool :=
  s.data.map Char.toLower == t.data.map Char.toLower

/-- Partition list options (types.PartitionListOptions), restricted to
the fields the v0.0.43 list path reads: name and state filters and the
pagination limit and offset (Go ints, embedded as Int). -/
structure PartitionListOptions where
  Names : List String := []
  States : List String := []
  Limit : Int := 0
  Offset : Int := 0
  deriving DecidableEq, Repr

/-- The partition list result (types.PartitionList): one page of
partitions plus the total count. -/
structure PartitionList where
  Partitions : List Partition := []
  Total : Nat := 0
  deriving DecidableEq, Repr

/-- matchesPartitionFilters: a partition passes a non-empty Names
filter when its name matches some requested name under strings.EqualFold,
and a non-empty States filter when its state equals some requested
state exactly; an empty filter list passes everything. -/
def matchesPartitionFilters (partition : Partition) (opts : PartitionListOptions) : Bool :=
  (if opts.Names.length > 0 then
    opts.Names.any (fun name => equalFold partition.Name name)
  else true) &&
  (if opts.States.length > 0 then
    opts.States.any (fun state => partition.State == state)
  else true)

/-- filterPartitionList: keeps exactly the partitions that match the
filters (the adapter builds the filtered slice by appending each
partition that matchesPartitionFilters accepts). -/
def filterPartitionList (partitions : List Partition) (opts : PartitionListOptions) :
    List Partition :=
  partitions.filter (fun p => matchesPartitionFilters p opts)

/-- pageStart: the slice start used by the List pagination, the offset
clamped below at zero (start := offset; if start is negative it is set
to 0). -/
def pageStart (offset : Int) : Int :=
  if offset < 0 then 0 else offset

/-- wrapInt64: the result of a Go 64-bit int computation, the
unbounded value reduced into the two's-complement range from
-9223372036854775808 up to 9223372036854775807 the way Go int
arithmetic wraps on overflow. -/
def wrapInt64 (x : Int) : Int :=
  (x + 9223372036854775808) % 18446744073709551616 - 9223372036854775808

/-- pageSliceEnd: the slice end used by the List pagination over a list
of length n: the list length, replaced by start + limit when a
positive limit is given, capped back at the list length when that sum
exceeds it.  The sum is a Go int addition and therefore wraps at 64
bits. -/
def pageSliceEnd (start limit : Int) (n : Nat) : Int :=
  if limit > 0 then
    (if wrapInt64 (start + limit) > (n : Int) then (n : Int)
     else wrapInt64 (start + limit))
  else (n : Int)

/-- paginationBounds: the slice bounds the List pagination computes
over a filtered list of length n; none encodes the early return taken
when the clamped start is at or beyond the end of the list. -/
def paginationBounds (offset limit : Int) (n : Nat) : Option (Int × Int) :=
  if pageStart offset ≥ (n : Int) then none
  else some (pageStart offset, pageSliceEnd (pageStart offset) limit n)

/-- listPartitionsPostProcess: the pure tail of PartitionAdapter.List
after the wire call and conversion: client-side filtering is applied
first (only when options were given), then pagination; the early
return and the sliced return both report the filtered length as
Total. -/
def listPartitionsPostProcess (converted : List Partition)
    (opts : Option PartitionListOptions) : PartitionList :=
  let filtered :=
    match opts with
    | some o => filterPartitionList converted o
    | none => converted
  let offset := match opts with | some o => o.Offset | none => 0
  let limit := match opts with | some o => o.Limit | none => 0
  match paginationBounds offset limit filtered.length with
  | none => { Partitions := [], Total := filtered.length }
  | some (s, e) =>
      { Partitions := (filtered.drop s.toNat).take (e - s).toNat
        Total := filtered.length }

/-- C2: when the requested offset is at or beyond the filtered result
size, List returns the empty page and a Total equal to the filtered
(unpaginated) total count. -/
theorem list_offset_beyond_filtered_size_empty_page (converted : List Partition)
    (opts : PartitionListOptions)
    (h : ((filterPartitionList converted opts).length : Int) ≤ opts.Offset) :
    listPartitionsPostProcess converted (some opts) =
      { Partitions := [], Total := (filterPartitionList converted opts).length } := by
  have hnn : (0 : Int) ≤ opts.Offset :=
    le_trans (Int.ofNat_nonneg _) h
  have hstart : pageStart opts.Offset = opts.Offset := by
    unfold pageStart
    omega
  have hnone :
      paginationBounds opts.Offset opts.Limit
        (filterPartitionList converted opts).length = none := by
    unfold paginationBounds
    rw [hstart]
    exact if_pos h
  unfold listPartitionsPostProcess
  simp only [hnone]

/-- Witness for C2 at a concrete input on which filtering shrinks the
list: of two partitions only one matches the state filter, the offset
1 is beyond it, and the page is empty with Total 1 (the filtered
total, not the unfiltered 2). -/
theorem list_offset_beyond_filtered_size_empty_page_witness :
    listPartitionsPostProcess
      [{ Name := "alpha", State := "up" }, { Name := "beta", State := "down" }]
      (some { States := ["up"], Offset := 1 }) =
      { Partitions := [],
        Total := (filterPartitionList
          [{ Name := "alpha", State := "up" }, { Name := "beta", State := "down" }]
          { States := ["up"], Offset := 1 }).length } :=
  list_offset_beyond_filtered_size_empty_page
    [{ Name := "alpha", State := "up" }, { Name := "beta", State := "down" }]
    { States := ["up"], Offset := 1 } (by decide)

/-- Counterexample to C9: the sum of start and limit is a Go 64-bit int
addition, so at offset 1 and the maximal limit over a filtered list of
length 2 the computed end wraps to the minimal int64, the cap against
the length does not fire, and the slicing is reached with an end far
below its start — the Go slice expression panics, so the slicing is
not safe for every offset and limit value. -/
theorem pagination_wrapping_counterexample :
    paginationBounds 1 9223372036854775807 2 = some (1, -9223372036854775808) ∧
    ¬ ((1 : Int) ≤ -9223372036854775808) := by
  constructor
  · decide
  · decide

/-- C9 amended: the pagination slicing is safe whenever the addition of
the clamped start and the limit does not overflow a 64-bit int:
whenever the List code reaches the slicing (paginationBounds returns
bounds), the start is non-negative, at most the end, and the end is
capped at the list length; and a negative offset is clamped to zero,
the bounds agreeing with those for offset zero. -/
theorem pagination_slicing_bounds_safe (offset limit : Int) (n : Nat)
    (hnowrap : pageStart offset + limit < 9223372036854775808) :
    (∀ s e, paginationBounds offset limit n = some (s, e) →
      0 ≤ s ∧ s ≤ e ∧ e ≤ (n : Int)) ∧
    (offset < 0 → paginationBounds offset limit n = paginationBounds 0 limit n) := by
  constructor
  · intro s e h
    unfold paginationBounds at h
    split at h
    · exact absurd h (by simp)
    · rename_i hlt
      rw [Option.some.injEq, Prod.mk.injEq] at h
      obtain ⟨rfl, rfl⟩ := h
      have hs0 : 0 ≤ pageStart offset := by
        unfold pageStart
        split <;> omega
      refine ⟨hs0, ?_, ?_⟩
      · unfold pageSliceEnd wrapInt64
        split
        · split <;> omega
        · omega
      · unfold pageSliceEnd wrapInt64
        split
        · split <;> omega
        · omega
  · intro hneg
    have : pageStart offset = pageStart 0 := by
      unfold pageStart
      split <;> omega
    unfold paginationBounds
    rw [this]

/-- Witness for the amended C9: at offset -5 and limit 2 over a
3-element list (a sum far from overflowing) the bounds are the
in-range pair (0, 2), and they coincide with the bounds for offset
zero. -/
theorem pagination_slicing_bounds_safe_witness :
    (0 ≤ (0 : Int) ∧ (0 : Int) ≤ 2 ∧ (2 : Int) ≤ ((3 : Nat) : Int)) ∧
    paginationBounds (-5) 2 3 = paginationBounds 0 2 3 :=
  ⟨(pagination_slicing_bounds_safe (-5) 2 3 (by decide)).1 0 2 (by decide),
   (pagination_slicing_bounds_safe (-5) 2 3 (by decide)).2 (by decide)⟩

/-- One boolean filter factor as used by matchesPartitionFilters: an
empty filter list passes, a non-empty one requires some member to
satisfy the predicate. -/
theorem filter_factor_characterization (l : List String) (f : String → Bool) :
    (if l.length > 0 then l.any f else true) = true ↔
      (l = [] ∨ ∃ x, x ∈ l ∧ f x = true) := by
  cases l with
  | nil => simp
  | cons a t => simp [List.any_eq_true]

/-- C10: a partition is retained by the client-side filters exactly
when a non-empty Names filter holds some name matching the partition
name under strings.EqualFold (case-insensitive), and a non-empty
States filter holds the partition state itself (exact, case-sensitive
equality). -/
theorem matches_partition_filters_characterization (p : Partition)
    (opts : PartitionListOptions) :
    matchesPartitionFilters p opts = true ↔
      ((opts.Names = [] ∨ ∃ n, n ∈ opts.Names ∧ equalFold p.Name n = true) ∧
       (opts.States = [] ∨ p.State ∈ opts.States)) := by
  unfold matchesPartitionFilters
  rw [Bool.and_eq_true, filter_factor_characterization,
    filter_factor_characterization]
  have hstates :
      (opts.States = [] ∨ ∃ x, x ∈ opts.States ∧ (p.State == x) = true) ↔
      (opts.States = [] ∨ p.State ∈ opts.States) := by
    constructor
    · rintro (h | ⟨x, hx, hbeq⟩)
      · exact Or.inl h
      · rw [beq_iff_eq] at hbeq
        exact Or.inr (hbeq ▸ hx)
    · rintro (h | hmem)
      · exact Or.inl h
      · exact Or.inr ⟨p.State, hmem, beq_self_eq_true p.State⟩
  rw [hstates]

/-- Witness for C10: a partition named GPU in state up is retained by
the filter asking for name gpu (different case) and state up (same
case). -/
theorem matches_partition_filters_characterization_witness :
    matchesPartitionFilters { Name := "GPU", State := "up" }
      { Names := ["gpu"], States := ["up"] } = true :=
  (matches_partition_filters_characterization
    { Name := "GPU", State := "up" }
    { Names := ["gpu"], States := ["up"] }).mpr (by decide)

/-! ## BaseManager preconditions and the Get precondition chain -/

/-- Modelled from the spec: BaseManager.ValidateContext (body absent
from the snapshot) fails with the ContextRequired error when the
caller-supplied context is absent, and passes otherwise. -/
def validateContext (ctxPresent : Bool) : Option ClientError :=
  if ctxPresent then none else some contextRequiredError

/-- Modelled from the spec: BaseManager.ValidateResourceName (body
absent from the snapshot) fails with a ValidationError naming the
field when the required identity string is empty. -/
def validateResourceName (name fieldName : String) : Option ClientError :=
  if name = "" then some (fieldRequiredMessage fieldName) else none

/-- Modelled from the spec: BaseManager.CheckClientInitialized (body
absent from the snapshot) fails with the ClientNotInitialized error
when the wire client handle was never constructed (is nil). -/
def checkClientInitialized (clientInitialized : Bool) : Option ClientError :=
  if clientInitialized then none else some clientNotInitializedError

/-- partitionGetPrecheck: the precondition chain of
PartitionAdapter.Get in the order the v0.0.43 source runs it:
ValidateContext first, then ValidateResourceName on the partition
name, then CheckClientInitialized; the first failing check's error is
returned. -/
def partitionGetPrecheck (ctxPresent clientInitialized : Bool)
    (partitionName : String) : Option ClientError :=
  match validateContext ctxPresent with
  | some e => some e
  | none =>
      match validateResourceName partitionName "partition name" with
      | some e => some e
      | none =>
          match checkClientInitialized clientInitialized with
          | some e => some e
          | none => none

/-- Counterexample to C3: Get called with an uninitialized (nil) wire
client and an empty partition name returns the name ValidationError,
not the ClientNotInitialized error the claim requires. -/
theorem get_nil_client_empty_name_counterexample :
    partitionGetPrecheck true false "" = some (fieldRequiredMessage "partition name") ∧
    partitionGetPrecheck true false "" ≠ some clientNotInitializedError := by
  constructor
  · rfl
  · decide

/-- C3 amended: context validity is checked before everything, but the
resource-name validation of Get precedes the client-initialization
check, so an uninitialized client is only reported once the name is
non-empty. -/
theorem get_precheck_ordering (clientInitialized : Bool) (partitionName : String) :
    partitionGetPrecheck false clientInitialized partitionName = some contextRequiredError ∧
    partitionGetPrecheck true clientInitialized "" = some (fieldRequiredMessage "partition name") ∧
    (partitionName ≠ "" →
      partitionGetPrecheck true false partitionName = some clientNotInitializedError) := by
  refine ⟨rfl, rfl, ?_⟩
  intro hne
  unfold partitionGetPrecheck validateContext validateResourceName checkClientInitialized
  simp [hne]

/-- Witness for the amended C3: with a valid context, a non-empty name
and a nil client, Get reports the ClientNotInitialized error. -/
theorem get_precheck_ordering_witness :
    partitionGetPrecheck true false "compute" = some clientNotInitializedError :=
  (get_precheck_ordering false "compute").2.2 (by decide)

/-! ## Entity create and update payloads and their validators -/

/-- Reservation creation payload (types.ReservationCreate): StartTime
is a Go time.Time value (its zero value embedded as 0) and EndTime a
pointer to a time (Option), per the callers in the repository. -/
structure ReservationCreate where
  Name : String := ""
  StartTime : Int := 0
  EndTime : Option Int := none
  NodeCount : Int := 0
  Users : List String := []
  Accounts : List String := []
  Partition : String := ""
  deriving DecidableEq, Repr

/-- Reservation update payload (types.ReservationUpdate): every field
optional, absent by default. -/
structure ReservationUpdate where
  Accounts : Option String := none
  Users : Option String := none
  StartTime : Option Int := none
  EndTime : Option Int := none
  NodeCount : Option Int := none
  deriving DecidableEq, Repr

/-- Association creation payload (types.AssociationCreate). -/
structure AssociationCreate where
  AccountName : String := ""
  UserName : String := ""
  Cluster : String := ""
  Partition : String := ""
  deriving DecidableEq, Repr

/-- Association update payload (types.AssociationUpdate), per the
fields the tests populate. -/
structure AssociationUpdate where
  DefaultQoS : Option String := none
  QoSList : List String := []
  deriving DecidableEq, Repr

/-- validateReservationCreate, modelled from the repository's tests
(the body is absent from the snapshot): a nil payload errors with
"reservation creation data is required", an empty name errors with
"reservation name is required", and any named payload passes —
TestReservationAdapter_ValidateReservationCreate accepts a payload
holding only a name, with zero StartTime and no EndTime. -/
def validateReservationCreate (reservation : Option ReservationCreate) :
    Option ClientError :=
  match reservation with
  | none => some (validationMessage "reservation creation data is required")
  | some r =>
      if r.Name = "" then some (fieldRequiredMessage "reservation name")
      else none

/-- validateReservationUpdate, modelled from the repository's tests
(the body is absent from the snapshot): a nil update errors with
"reservation update data is required" and every non-nil update passes;
TestReservationAdapter_ValidateReservationUpdate asserts the empty
update is allowed. -/
def validateReservationUpdate (update : Option ReservationUpdate) :
    Option ClientError :=
  match update with
  | none => some (validationMessage "reservation update data is required")
  | some _ => none

/-- validateAssociationUpdate, modelled from the repository's tests
(the body is absent from the snapshot): a nil update errors with
"association update data is required" and every non-nil update passes;
TestAssociationAdapter_ValidateAssociationUpdate asserts the empty
update is allowed. -/
def validateAssociationUpdate (update : Option AssociationUpdate) :
    Option ClientError :=
  match update with
  | none => some (validationMessage "association update data is required")
  | some _ => none

/-- C4 evaluation at the failing input: both update validators accept a
non-nil update with zero populated fields, returning no error instead
of the ValidationError citing "at least one field" that the spec and
the changelog require. -/
theorem empty_update_payload_accepted :
    validateReservationUpdate (some {}) = none ∧
    validateAssociationUpdate (some {}) = none :=
  ⟨rfl, rfl⟩

/-- C8 evaluation at the failing input: validateReservationCreate
accepts a payload holding only a name, whose StartTime is the zero
time and whose EndTime is absent, instead of returning the
ValidationError the claim requires for a missing time. -/
theorem timeless_reservation_create_accepted :
    validateReservationCreate
      (some { Name := "test-reservation" }) = none ∧
    ({ Name := "test-reservation" } : ReservationCreate).StartTime = 0 ∧
    ({ Name := "test-reservation" } : ReservationCreate).EndTime = none :=
  ⟨rfl, rfl, rfl⟩

/-- Modelled from the spec: validateAssociationCreate (body absent from
the snapshot) requires account name, user name and cluster name to be
non-empty; the account and user messages are pinned by
TestAssociationAdapter_Create, and the cluster message by the error
the cluster-fix harness names ("cluster is required for association
creation"). -/
def validateAssociationCreate (association : Option AssociationCreate) :
    Option ClientError :=
  match association with
  | none => some (validationMessage "association creation data is required")
  | some a =>
      if a.AccountName = "" then some (fieldRequiredMessage "account name")
      else if a.UserName = "" then some (fieldRequiredMessage "user name")
      else if a.Cluster = "" then
        some (validationMessage "cluster is required for association creation")
      else none

/-- C7: association creation validation succeeds exactly when account
name, user name and cluster name are all non-empty, and every error it
returns is a ValidationError. -/
theorem association_create_requires_account_user_cluster (a : AssociationCreate) :
    (validateAssociationCreate (some a) = none ↔
      (a.AccountName ≠ "" ∧ a.UserName ≠ "" ∧ a.Cluster ≠ "")) ∧
    (∀ e, validateAssociationCreate (some a) = some e →
      e.code = ErrorCode.validationError) := by
  constructor
  · simp only [validateAssociationCreate]
    by_cases hacct : a.AccountName = "" <;>
      by_cases huser : a.UserName = "" <;>
        by_cases hclus : a.Cluster = "" <;>
          simp [hacct, huser, hclus]
  · intro e he
    simp only [validateAssociationCreate] at he
    by_cases hacct : a.AccountName = ""
    · rw [if_pos hacct] at he
      cases he
      rfl
    · rw [if_neg hacct] at he
      by_cases huser : a.UserName = ""
      · rw [if_pos huser] at he
        cases he
        rfl
      · rw [if_neg huser] at he
        by_cases hclus : a.Cluster = ""
        · rw [if_pos hclus] at he
          cases he
          rfl
        · rw [if_neg hclus] at he
          cases he

/-- Witness for C7: a payload with account and user set but an empty
cluster fails with the cluster ValidationError, whose code is
validationError. -/
theorem association_create_requires_account_user_cluster_witness :
    (validationMessage "cluster is required for association creation").code =
      ErrorCode.validationError :=
  (association_create_requires_account_user_cluster
    { AccountName := "physics", UserName := "testuser" }).2
    (validationMessage "cluster is required for association creation") (by decide)

/-! ## Association default-cluster population -/

/-- Modelled from the spec: getDefaultClusterName (body absent from the
snapshot) returns the configured default cluster name, which the spec,
the cluster-fix harness and its test pin to "linux". -/
def getDefaultClusterName : String := "linux"

/-- Modelled from the spec: the population step AssociationAdapter
Create runs before validation — an empty Cluster field is populated
with the default cluster name, a non-empty one is left unchanged. -/
def applyDefaultCluster (association : AssociationCreate) : AssociationCreate :=
  if association.Cluster = "" then
    { association with Cluster := getDefaultClusterName }
  else association

/-- C5: creation with an empty Cluster populates it with the default
"linux", creation with an explicit cluster such as gpu-cluster leaves
it unchanged, and the default never overrides any non-empty
caller-provided cluster name. -/
theorem default_cluster_population (a : AssociationCreate) :
    (applyDefaultCluster
      { AccountName := "physics", UserName := "testuser", Cluster := "" }).Cluster =
      "linux" ∧
    (applyDefaultCluster
      { AccountName := "chemistry", UserName := "otheruser",
        Cluster := "gpu-cluster" }).Cluster = "gpu-cluster" ∧
    (a.Cluster ≠ "" → applyDefaultCluster a = a) := by
  refine ⟨rfl, rfl, ?_⟩
  intro hne
  unfold applyDefaultCluster
  simp [hne]

/-- Witness for C5: a concrete association with cluster gpu-cluster is
left unchanged by the population step. -/
theorem default_cluster_population_witness :
    applyDefaultCluster
      { AccountName := "chemistry", UserName := "otheruser",
        Cluster := "gpu-cluster" } =
      { AccountName := "chemistry", UserName := "otheruser",
        Cluster := "gpu-cluster" } :=
  (default_cluster_population
    { AccountName := "chemistry", UserName := "otheruser",
      Cluster := "gpu-cluster" }).2.2 (by decide)

/-! ## Statically unsupported operations

The v0.0.43 partition adapter refuses Create, Update and Delete in its
first statement, and the v0.0.41 node manager refuses List, Get and
Update likewise.  The wire client handle is embedded as the data a
wire call would observe, so independence from it expresses that no
wire call is attempted. -/

/-- Partition creation payload (types.PartitionCreate), restricted to
its identity field; its content is never read by the v0.0.43 path. -/
structure PartitionCreate where
  Name : String := ""
  deriving DecidableEq, Repr

/-- Partition update payload (types.PartitionUpdate); never read by
the v0.0.43 path. -/
structure PartitionUpdate where
  State : Option String := none
  deriving DecidableEq, Repr

/-- Partition creation response (types.PartitionCreateResponse). -/
structure PartitionCreateResponse where
  Name : String := ""
  deriving DecidableEq, Repr

/-- Node list options (interfaces.ListNodesOptions), restricted to the
fields a caller would populate; never read by the v0.0.41 path. -/
structure ListNodesOptions where
  Names : List String := []
  deriving DecidableEq, Repr

/-- Node update payload (interfaces.NodeUpdate); never read by the
v0.0.41 path. -/
structure NodeUpdate where
  State : Option String := none
  deriving DecidableEq, Repr

/-- Domain node record (interfaces.Node), restricted to its identity. -/
structure Node where
  Name : String := ""
  deriving DecidableEq, Repr

/-- Node list result (interfaces.NodeList). -/
structure NodeList where
  Nodes : List Node := []
  deriving DecidableEq, Repr

/-- The data a v0.0.43 wire client call would observe. -/
abbrev WireData43 := List V0043PartitionInfo

/-- The data a v0.0.41 wire client call would observe. -/
abbrev WireData41 := List Node

/-- The error PartitionAdapter.Create returns in v0.0.43. -/
def partitionCreateNotSupportedV43 : ClientError :=
  { code := ErrorCode.unsupportedOperation
    message := "partition creation not supported in v0.0.43"
    details := "Method not allowed (405)" }

/-- The error PartitionAdapter.Update returns in v0.0.43. -/
def partitionUpdateNotSupportedV43 : ClientError :=
  { code := ErrorCode.unsupportedOperation
    message := "partition updates not supported in v0.0.43"
    details := "Method not allowed (405)" }

/-- The error PartitionAdapter.Delete returns in v0.0.43. -/
def partitionDeleteNotSupportedV43 : ClientError :=
  { code := ErrorCode.unsupportedOperation
    message := "partition deletion not supported in v0.0.43"
    details := "Method not allowed (405)" }

/-- The error NodeManagerImpl.List returns in v0.0.41. -/
def nodeListNotImplementedV41 : ClientError :=
  { code := ErrorCode.unsupportedOperation
    message := "Node listing not implemented for v0.0.41"
    details := "The v0.0.41 node response uses complex inline structs that differ significantly from other API versions" }

/-- The error NodeManagerImpl.Get returns in v0.0.41. -/
def nodeGetNotImplementedV41 : ClientError :=
  { code := ErrorCode.unsupportedOperation
    message := "Node retrieval not implemented for v0.0.41"
    details := "The v0.0.41 node response uses complex inline structs that differ significantly from other API versions" }

/-- The error NodeManagerImpl.Update returns in v0.0.41. -/
def nodeUpdateNotImplementedV41 : ClientError :=
  { code := ErrorCode.unsupportedOperation
    message := "Node updates not implemented for v0.0.41"
    details := "The v0.0.41 node update requires complex inline struct mapping that differs significantly from other API versions" }

/-- PartitionAdapter.Create for v0.0.43: returns the
UnsupportedOperation error in its first statement, before any check or
wire call. -/
def partitionCreateV43 (_ctxPresent : Bool) (_wire : Option WireData43)
    (_partition : Option PartitionCreate) :
    Except ClientError PartitionCreateResponse :=
  Except.error partitionCreateNotSupportedV43

/-- PartitionAdapter.Update for v0.0.43: returns the
UnsupportedOperation error in its first statement. -/
def partitionUpdateV43 (_ctxPresent : Bool) (_wire : Option WireData43)
    (_partitionName : String) (_update : Option PartitionUpdate) :
    Except ClientError Unit :=
  Except.error partitionUpdateNotSupportedV43

/-- PartitionAdapter.Delete for v0.0.43: returns the
UnsupportedOperation error in its first statement. -/
def partitionDeleteV43 (_ctxPresent : Bool) (_wire : Option WireData43)
    (_partitionName : String) : Except ClientError Unit :=
  Except.error partitionDeleteNotSupportedV43

/-- NodeManagerImpl.List for v0.0.41: returns the UnsupportedOperation
error in its first statement. -/
def nodeListV41 (_ctxPresent : Bool) (_wire : Option WireData41)
    (_opts : Option ListNodesOptions) : Except ClientError NodeList :=
  Except.error nodeListNotImplementedV41

/-- NodeManagerImpl.Get for v0.0.41: returns the UnsupportedOperation
error in its first statement. -/
def nodeGetV41 (_ctxPresent : Bool) (_wire : Option WireData41)
    (_nodeName : String) : Except ClientError Node :=
  Except.error nodeGetNotImplementedV41

/-- NodeManagerImpl.Update for v0.0.41: returns the
UnsupportedOperation error in its first statement. -/
def nodeUpdateV41 (_ctxPresent : Bool) (_wire : Option WireData41)
    (_nodeName : String) (_update : Option NodeUpdate) :
    Except ClientError Unit :=
  Except.error nodeUpdateNotImplementedV41

/-- C6: every operation a wire version does not expose fails with its
fixed UnsupportedOperation error for every context, client state and
argument — in particular the result never depends on the wire data, so
no wire call is observed — and each returned error carries the
unsupportedOperation code. -/
theorem unsupported_operations_static (c : Bool) (w w2 : Option WireData43)
    (v v2 : Option WireData41) (pc : Option PartitionCreate) (pn : String)
    (pu : Option PartitionUpdate) (no : Option ListNodesOptions)
    (nn : String) (nu : Option NodeUpdate) :
    partitionCreateV43 c w pc = Except.error partitionCreateNotSupportedV43 ∧
    partitionUpdateV43 c w pn pu = Except.error partitionUpdateNotSupportedV43 ∧
    partitionDeleteV43 c w pn = Except.error partitionDeleteNotSupportedV43 ∧
    nodeListV41 c v no = Except.error nodeListNotImplementedV41 ∧
    nodeGetV41 c v nn = Except.error nodeGetNotImplementedV41 ∧
    nodeUpdateV41 c v nn nu = Except.error nodeUpdateNotImplementedV41 ∧
    partitionCreateV43 c w pc = partitionCreateV43 c w2 pc ∧
    nodeListV41 c v no = nodeListV41 c v2 no ∧
    partitionCreateNotSupportedV43.code = ErrorCode.unsupportedOperation ∧
    partitionUpdateNotSupportedV43.code = ErrorCode.unsupportedOperation ∧
    partitionDeleteNotSupportedV43.code = ErrorCode.unsupportedOperation ∧
    nodeListNotImplementedV41.code = ErrorCode.unsupportedOperation ∧
    nodeGetNotImplementedV41.code = ErrorCode.unsupportedOperation ∧
    nodeUpdateNotImplementedV41.code = ErrorCode.unsupportedOperation :=
  ⟨rfl, rfl, rfl, rfl, rfl, rfl, rfl, rfl, rfl, rfl, rfl, rfl, rfl, rfl⟩

end SlurmClient
